import Mathlib

/-!
Verification of the WAD file-handle module (`src/w_handle.c`).

The module dispatches a fixed operation set over two backends:
the C standard library (`File_Standard*`, over `FILE`) and the SDL
`SDL_RWops` abstraction (`File_SDL*`).  We embed the functions of
`w_handle.c` shallowly.  External primitives (libc `fopen`, `fseek`,
`ftell`, `fgets`; SDL `SDL_RWread`, `SDL_RWseek`, `SDL_RWtell`,
`SDL_RWsize`, `SDL_GetError`) are out of scope of the module: where a
function of the module merely forwards a primitive result, the
primitive result is a parameter of the embedding; where the module
inspects the result, the parameter ranges over everything the
primitive may return.  Buffers written through pointers are modelled
as total functions from byte index to byte value, so that a write
outside any bound is visible in the model.
-/

namespace WHandle

/-- Value of the C standard constant `EOF`. -/
def EOF : Int := -1

/-- Conversion of a byte through the C type `char` (signed, as on the
x86 targets of this codebase) and then to `int`: bytes at least 128
become negative. -/
def signedChar (b : Nat) : Int :=
  if b % 256 < 128 then (b % 256 : Int) else (b % 256 : Int) - 256

/-- Constant `SEEK_SET` of the C library. -/
def SEEK_SET : Int := 0

/-- Constant `SEEK_CUR` of the C library. -/
def SEEK_CUR : Int := 1

/-- Constant `SEEK_END` of the C library. -/
def SEEK_END : Int := 2

/-- Constant `RW_SEEK_SET` of SDL. -/
def RW_SEEK_SET : Int := 0

/-- Constant `RW_SEEK_CUR` of SDL. -/
def RW_SEEK_CUR : Int := 1

/-- Constant `RW_SEEK_END` of SDL. -/
def RW_SEEK_END : Int := 2

/-- Modelled from the spec: the backend kind tag (the enum
`fhandletype_t` lives in the header `w_handle.h`, which is not among
the provided sources; the spec fixes the two kinds Standard and
AbstractStream).  C enums are integers, so unknown kinds are all the
other integers.  `FILEHANDLE_STANDARD` is Backend A (standard I/O). -/
def FILEHANDLE_STANDARD : Int := 0

/-- Modelled from the spec: `FILEHANDLE_SDL` is Backend B
(the SDL `SDL_RWops` abstract stream). -/
def FILEHANDLE_SDL : Int := 1

/-- Modelled from the spec: the fields of `filehandle_t` (declared in
the absent header `w_handle.h`) that the code of `w_handle.c` reads or
writes: the backend tag `type`, the untyped backend resource `file`
(`none` models a `NULL` pointer), and the owned, nullable diagnostic
string `lasterror`.  The nine bound function pointers are the
functions embedded below, selected by `type`. -/
structure FileHandleRec where
  type : Int
  file : Option Nat
  lasterror : Option String
deriving Repr, DecidableEq

/-- Model of a libc `FILE` stream: its byte contents and the current
position. -/
structure CFile where
  data : List Nat
  pos : Nat
deriving Repr, DecidableEq

/-- Model of libc `ftell`: the current position. -/
def ftell (f : CFile) : Int := f.pos

/-- Model of libc `fseek`: resolve the origin, move to
`base + offset`; report 0 on success and -1 when the target position
is negative. -/
def fseek (f : CFile) (offset : Int) (origin : Int) : Int × CFile :=
  let base : Int :=
    if origin = SEEK_CUR then (f.pos : Int)
    else if origin = SEEK_END then (f.data.length : Int)
    else 0
  let newpos := base + offset
  if newpos < 0 then (-1, f) else (0, { f with pos := newpos.toNat })

/-- A write of one byte into a buffer modelled as a function. -/
def bufSet (buf : Nat → Nat) (i : Nat) (v : Nat) : Nat → Nat :=
  fun j => if j = i then v else buf j

/-- Consecutive writes of a list of bytes starting at index `i`. -/
def bufWriteBytes (buf : Nat → Nat) (i : Nat) (bs : List Nat) : Nat → Nat :=
  match bs with
  | [] => buf
  | b :: rest => bufWriteBytes (bufSet buf i b) (i + 1) rest

/-- The bytes a line-read consumes from the remaining input: at most
`n` bytes, stopping after (and including) the first newline. -/
def takeLine : List Nat → Nat → List Nat
  | _, 0 => []
  | [], _ + 1 => []
  | b :: rest, n + 1 => if b = 10 then [b] else b :: takeLine rest n

/-- Outcome of a get-string call: whether the buffer (rather than
`NULL`) was returned, the buffer memory after the call, and the
backend state after the call. -/
structure GetStringRes (σ : Type) where
  ret : Bool
  str : Nat → Nat
  state : σ

/-- Model of libc `fgets(str, num, f)`: read at most `num - 1` bytes,
stopping after a newline or at end of data; write the bytes at the
start of `str` followed by a null terminator; return `NULL` (here
`ret = false`, buffer untouched) when no byte could be read. -/
def fgets (str : Nat → Nat) (num : Nat) (f : CFile) : GetStringRes CFile :=
  if num = 0 then ⟨false, str, f⟩
  else
    let line := takeLine (f.data.drop f.pos) (num - 1)
    if line.length = 0 then ⟨false, str, f⟩
    else
      ⟨true, bufSet (bufWriteBytes str 0 line) line.length 0,
        { f with pos := f.pos + line.length }⟩

/-- Embedding of `File_StandardSizeImpl` (w_handle.c): remember the
current position, seek to the end, read the position there as the
length, restore the original position, return the length (as
`size_t`). -/
def File_StandardSizeImpl (f : CFile) : Nat × CFile :=
  let cur : Int := ftell f
  let f1 := (fseek f 0 SEEK_END).2
  let length : Int := ftell f1
  let f2 := (fseek f1 cur SEEK_SET).2
  (length.toNat, f2)

/-- Embedding of `File_StandardSeek`: forward to `fseek` with offset
and origin unchanged. -/
def File_StandardSeek (f : CFile) (offset : Int) (origin : Int) : Int × CFile :=
  fseek f offset origin

/-- Embedding of `File_StandardTell`: forward to `ftell`. -/
def File_StandardTell (f : CFile) : Int := ftell f

/-- Embedding of `File_StandardSize`: forward to
`File_StandardSizeImpl` on the `FILE` of the handle. -/
def File_StandardSize (f : CFile) : Nat × CFile := File_StandardSizeImpl f

/-- Embedding of `File_StandardGetString`: forward to `fgets` with the
buffer and length unchanged. -/
def File_StandardGetString (f : CFile) (str : Nat → Nat) (num : Nat) :
    GetStringRes CFile :=
  fgets str num f

/-- Result of `File_Open`: `fatal` models the call of `I_Error`, which
aborts the process and never returns; `ret v k` models returning the
value `v` (a handle or `NULL`) with `k` heap allocations made by this
call still live (the handle is allocated by `calloc` and freed again
on the failure path). -/
inductive OpenResult where
  | fatal : OpenResult
  | ret : Option FileHandleRec → Nat → OpenResult
deriving Repr, DecidableEq

/-- Embedding of `File_Open` (w_handle.c).  The external open
primitives are parameters: `fopenRes` is what `fopen` returns for the
given path and mode, `rwFromFileRes` what `SDL_RWFromFile` returns
(`none` models `NULL`).  A known kind stores the primitive result in
`handle.file` and binds the operations of that kind; an unknown kind
reaches `I_Error`.  A `NULL` `handle.file` frees the handle and
returns `NULL`. -/
def File_Open (fopenRes : Option Nat) (rwFromFileRes : Option Nat)
    (filetype : Int) : OpenResult :=
  match (if filetype = FILEHANDLE_STANDARD then
      some ({ type := filetype, file := fopenRes, lasterror := none } : FileHandleRec)
    else if filetype = FILEHANDLE_SDL then
      some { type := filetype, file := rwFromFileRes, lasterror := none }
    else none) with
  | none => OpenResult.fatal
  | some handle =>
    if handle.file = none then OpenResult.ret none 0
    else OpenResult.ret (some handle) 1

/-- Embedding of `File_CheckError` (w_handle.c): for a Standard handle
return `ferror` of the underlying `FILE` (the native flag, a
parameter here); for an SDL handle return 0; the default switch case
falls through to `return 0`. -/
def File_CheckError (ferrorFlag : Int) (handle : FileHandleRec) : Int :=
  if handle.type = FILEHANDLE_STANDARD then ferrorFlag
  else if handle.type = FILEHANDLE_SDL then 0
  else 0

/-- Embedding of `File_SDLSetError`: copy the current `SDL_GetError`
text (a parameter) into `lasterror`, freeing the previous string. -/
def File_SDLSetError (errorstring : String) (handle : FileHandleRec) :
    FileHandleRec :=
  { handle with lasterror := some errorstring }

/-- Embedding of `File_SDLRead`: call the `SDL_RWread` primitive
(its returned element count is the parameter `readRes`), refresh
`lasterror`, and return the count. -/
def File_SDLRead (readRes : Nat) (errorstring : String)
    (handle : FileHandleRec) : Nat × FileHandleRec :=
  (readRes, File_SDLSetError errorstring handle)

/-- Embedding of `File_SDLSeek`: translate the libc origin to the SDL
whence (`SEEK_CUR` to `RW_SEEK_CUR`, `SEEK_END` to `RW_SEEK_END`,
anything else keeps the initial `RW_SEEK_SET`), call the `SDL_RWseek`
primitive (a parameter mapping offset and whence to the resulting
position), refresh `lasterror`, and return -1 when the primitive
reported -1, else 0. -/
def File_SDLSeek (rwseek : Int → Int → Int) (errorstring : String)
    (handle : FileHandleRec) (offset : Int) (origin : Int) :
    Int × FileHandleRec :=
  let type : Int :=
    if origin = SEEK_CUR then RW_SEEK_CUR
    else if origin = SEEK_END then RW_SEEK_END
    else RW_SEEK_SET
  let position := rwseek offset type
  (if position = -1 then -1 else 0, File_SDLSetError errorstring handle)

/-- Embedding of `File_SDLTell`: call the `SDL_RWtell` primitive (its
result is the parameter `tellRes`), refresh `lasterror`, and return
the position. -/
def File_SDLTell (tellRes : Int) (errorstring : String)
    (handle : FileHandleRec) : Int × FileHandleRec :=
  (tellRes, File_SDLSetError errorstring handle)

/-- Embedding of `File_SDLSize`: call the `SDL_RWsize` primitive (its
result is the parameter `sizeRes`), refresh `lasterror`, and return
the size cast to `size_t` (64-bit). -/
def File_SDLSize (sizeRes : Int) (errorstring : String)
    (handle : FileHandleRec) : Nat × FileHandleRec :=
  ((sizeRes % (2 : Int) ^ 64).toNat, File_SDLSetError errorstring handle)

/-- Embedding of `File_SDLGetChar`: read one byte via `SDL_RWread`
(the parameter `rwread` maps a requested count to the byte list the
primitive delivers; an empty list is a zero return).  On a zero
return, refresh `lasterror` and return `EOF`; otherwise return the
byte read, converted through `char`. -/
def File_SDLGetChar (rwread : Nat → List Nat) (errorstring : String)
    (handle : FileHandleRec) : Int × FileHandleRec :=
  match rwread 1 with
  | [] => (EOF, File_SDLSetError errorstring handle)
  | c :: _ => (signedChar c, handle)

/-- Embedding of `File_SDLGetString`: request `num - 1` bytes via
`SDL_RWread` (the parameter `rwread` maps the requested count to the
bytes the primitive delivers into `str`; the return value of the primitive
is their number).  On a zero return, refresh `lasterror` and return
`NULL`; otherwise write a null terminator at index `num - 1` and
return the buffer. -/
def File_SDLGetString (rwread : Nat → List Nat) (errorstring : String)
    (handle : FileHandleRec) (str : Nat → Nat) (num : Nat) :
    GetStringRes FileHandleRec :=
  let delivered := rwread (num - 1)
  let str1 := bufWriteBytes str 0 delivered
  if delivered.length = 0 then
    ⟨false, str1, File_SDLSetError errorstring handle⟩
  else
    ⟨true, bufSet str1 (num - 1) 0, handle⟩

/-- Embedding of `File_SDLError`: return the cached `lasterror`
string. -/
def File_SDLError (handle : FileHandleRec) : Option String :=
  handle.lasterror

/-- Embedding of `File_SDLEOF`: query `SDL_RWsize` (parameter
`sizeRes`); a negative size refreshes `lasterror` and reports
end-of-stream.  Then query `SDL_RWtell` (parameter `tellRes`); a -1
position reports end-of-stream.  Otherwise report end-of-stream
exactly when the position is at least the size. -/
def File_SDLEOF (sizeRes : Int) (tellRes : Int) (errorstring : String)
    (handle : FileHandleRec) : Int × FileHandleRec :=
  let filesize := sizeRes
  if filesize < 0 then (1, File_SDLSetError errorstring handle)
  else
    let position := tellRes
    if position = -1 then (1, handle)
    else if position ≥ filesize then (1, handle)
    else (0, handle)

/-! ### Helper lemmas -/

/-- Writes of a byte list starting at `i` leave every index at or
beyond `i + length` unchanged. -/
theorem bufWriteBytes_frame (bs : List Nat) :
    ∀ (buf : Nat → Nat) (i j : Nat), i + bs.length ≤ j →
      bufWriteBytes buf i bs j = buf j := by
  induction bs with
  | nil => intro buf i j _; rfl
  | cons b rest ih =>
    intro buf i j h
    simp only [List.length_cons] at h
    simp only [bufWriteBytes]
    rw [ih (bufSet buf i b) (i + 1) j (by omega)]
    unfold bufSet
    rw [if_neg (by omega)]

/-- A line read consumes at most the requested number of bytes. -/
theorem takeLine_length : ∀ (l : List Nat) (n : Nat),
    (takeLine l n).length ≤ n := by
  intro l
  induction l with
  | nil => intro n; cases n <;> simp [takeLine]
  | cons b rest ih =>
    intro n
    cases n with
    | zero => simp [takeLine]
    | succ m =>
      simp only [takeLine]
      split
      · simp
      · simpa using Nat.succ_le_succ (ih m)

/-- Computation of the size algorithm on the `FILE` model: it returns
the data length and the restored stream. -/
theorem standardSizeImpl_eq (data : List Nat) (pos : Nat) :
    File_StandardSizeImpl ⟨data, pos⟩ = (data.length, ⟨data, pos⟩) := by
  unfold File_StandardSizeImpl fseek ftell
  simp only [SEEK_SET, SEEK_CUR, SEEK_END]
  norm_num
  rw [if_neg (show ¬((data.length : Int) < 0) by omega)]
  rw [if_neg (show ¬((pos : Int) < 0) by omega)]
  simp

/-! ### Claim theorems -/

/-- Claim C1 counterexample: the claim says `File_SDLGetString` fails
whenever the primitive read is short (fewer than `num - 1` bytes).  At
`num = 3` with a primitive read delivering 1 byte (short of the 2
requested), the call nevertheless succeeds and returns the buffer,
because the code only checks the return value of the primitive against
zero. -/
theorem sdl_getstring_short_read_counterexample :
    ((fun _ : Nat => [65]) (3 - 1)).length < 3 - 1 ∧
    (File_SDLGetString (fun _ => [65]) "e" ⟨1, some 3, none⟩
      (fun _ => 7) 3).ret = true := by
  exact ⟨by decide, rfl⟩

/-- Claim C1 (amended): `File_SDLGetString` requests `num - 1` bytes
from the primitive read; it fails, reporting no string after
refreshing `lasterror`, exactly when the primitive read returns zero
bytes; when the primitive read returns at least one byte (even fewer
than `num - 1`), it writes the null terminator at index `num - 1` and
returns the buffer, leaving `lasterror` untouched. -/
theorem sdl_getstring_spec (rwread : Nat → List Nat) (errorstring : String)
    (handle : FileHandleRec) (str : Nat → Nat) (num : Nat) :
    ((rwread (num - 1)).length = 0 →
      (File_SDLGetString rwread errorstring handle str num).ret = false ∧
      (File_SDLGetString rwread errorstring handle str num).state.lasterror
        = some errorstring) ∧
    ((rwread (num - 1)).length ≠ 0 →
      (File_SDLGetString rwread errorstring handle str num).ret = true ∧
      (File_SDLGetString rwread errorstring handle str num).str (num - 1) = 0 ∧
      (File_SDLGetString rwread errorstring handle str num).state = handle) := by
  unfold File_SDLGetString File_SDLSetError bufSet
  constructor
  · intro h
    rw [if_pos h]
    exact ⟨rfl, rfl⟩
  · intro h
    rw [if_neg h]
    exact ⟨rfl, by simp, rfl⟩

/-- Witness for the amended claim C1 at concrete inputs: a zero-byte
primitive read fails, a one-byte primitive read with `num = 3`
terminates the buffer at index 2. -/
theorem sdl_getstring_spec_witness :
    (File_SDLGetString (fun _ => []) "e" ⟨1, some 3, none⟩
      (fun _ => 7) 3).ret = false ∧
    (File_SDLGetString (fun _ => [65]) "e2" ⟨1, some 3, none⟩
      (fun _ => 7) 3).str 2 = 0 :=
  ⟨((sdl_getstring_spec (fun _ => []) "e" ⟨1, some 3, none⟩
      (fun _ => 7) 3).1 (by decide)).1,
   ((sdl_getstring_spec (fun _ => [65]) "e2" ⟨1, some 3, none⟩
      (fun _ => 7) 3).2 (by decide)).2.1⟩

/-- Claim C2: `File_SDLEOF` reports no end-of-stream while the told
position is strictly below the size (both primitives succeeding),
reports end-of-stream once the position is at least the size, and
reports end-of-stream whenever the size primitive fails (negative
size) or the tell primitive fails (position -1). -/
theorem sdl_eof_spec (sizeRes tellRes : Int) (errorstring : String)
    (handle : FileHandleRec) :
    (0 ≤ sizeRes → tellRes ≠ -1 → tellRes < sizeRes →
      (File_SDLEOF sizeRes tellRes errorstring handle).1 = 0) ∧
    (sizeRes ≤ tellRes →
      (File_SDLEOF sizeRes tellRes errorstring handle).1 = 1) ∧
    (sizeRes < 0 ∨ tellRes = -1 →
      (File_SDLEOF sizeRes tellRes errorstring handle).1 = 1) := by
  unfold File_SDLEOF
  refine ⟨?_, ?_, ?_⟩
  · intro h0 h1 h2
    rw [if_neg (by omega), if_neg h1, if_neg (by omega)]
  · intro h
    by_cases hs : sizeRes < 0
    · rw [if_pos hs]
    · rw [if_neg hs, if_neg (by omega), if_pos (by omega)]
  · intro h
    by_cases hs : sizeRes < 0
    · rw [if_pos hs]
    · rw [if_neg hs, if_pos (by omega)]

/-- Witness for claim C2: position 3 of 5 is not end-of-stream,
position 7 of 5 is, and a failed size primitive (-1) is. -/
theorem sdl_eof_spec_witness :
    (File_SDLEOF 5 3 "e" ⟨1, some 3, none⟩).1 = 0 ∧
    (File_SDLEOF 5 7 "e" ⟨1, some 3, none⟩).1 = 1 ∧
    (File_SDLEOF (-1) 0 "e" ⟨1, some 3, none⟩).1 = 1 :=
  ⟨(sdl_eof_spec 5 3 "e" ⟨1, some 3, none⟩).1 (by decide) (by decide) (by decide),
   (sdl_eof_spec 5 7 "e" ⟨1, some 3, none⟩).2.1 (by decide),
   (sdl_eof_spec (-1) 0 "e" ⟨1, some 3, none⟩).2.2 (Or.inl (by decide))⟩

/-- Claim C3: every SDL read, seek, tell, and size call stores the
current SDL diagnostic text into `lasterror` (replacing the previous
value), whatever the primitive returned, so `lasterror` afterwards
always holds the diagnostic state of the most recent such call. -/
theorem sdl_ops_refresh_lasterror (readRes : Nat) (rwseek : Int → Int → Int)
    (tellRes sizeRes : Int) (offset origin : Int) (errorstring : String)
    (handle : FileHandleRec) :
    (File_SDLRead readRes errorstring handle).2.lasterror = some errorstring ∧
    (File_SDLSeek rwseek errorstring handle offset origin).2.lasterror
      = some errorstring ∧
    (File_SDLTell tellRes errorstring handle).2.lasterror = some errorstring ∧
    (File_SDLSize sizeRes errorstring handle).2.lasterror = some errorstring :=
  ⟨rfl, rfl, rfl, rfl⟩

/-- Claim C4: `File_CheckError` returns the native `ferror` flag for a
Standard handle and always 0 for an SDL handle, whatever the cached
`lasterror` of the handle says about earlier failures. -/
theorem checkerror_by_backend (ferrorFlag : Int) (handle : FileHandleRec) :
    (handle.type = FILEHANDLE_STANDARD →
      File_CheckError ferrorFlag handle = ferrorFlag) ∧
    (handle.type = FILEHANDLE_SDL →
      File_CheckError ferrorFlag handle = 0) := by
  unfold File_CheckError FILEHANDLE_STANDARD FILEHANDLE_SDL
  constructor
  · intro h
    rw [if_pos h]
  · intro h
    rw [if_neg (by rw [h]; decide), if_pos h]

/-- Witness for claim C4: a Standard handle reports the native flag 1;
an SDL handle whose last operation failed (cached diagnostic present)
still reports 0. -/
theorem checkerror_by_backend_witness :
    File_CheckError 1 ⟨FILEHANDLE_STANDARD, some 7, none⟩ = 1 ∧
    File_CheckError 1 ⟨FILEHANDLE_SDL, some 7, some "boom"⟩ = 0 :=
  ⟨(checkerror_by_backend 1 ⟨FILEHANDLE_STANDARD, some 7, none⟩).1 rfl,
   (checkerror_by_backend 1 ⟨FILEHANDLE_SDL, some 7, some "boom"⟩).2 rfl⟩

/-- Claim C5: for both backends and any `num ≥ 1`, get-string never
changes any buffer index at or beyond `num`, and whenever it returns
the buffer (success) the buffer holds a null terminator at some index
below `num`.  For the SDL backend the primitive read delivers at most
the requested number of bytes. -/
theorem getstring_bounds (num : Nat) (hnum : 1 ≤ num) :
    (∀ (f : CFile) (str : Nat → Nat),
      (∀ j, num ≤ j → (File_StandardGetString f str num).str j = str j) ∧
      ((File_StandardGetString f str num).ret = true →
        ∃ i, i < num ∧ (File_StandardGetString f str num).str i = 0)) ∧
    (∀ (rwread : Nat → List Nat), (∀ c, (rwread c).length ≤ c) →
      ∀ (errorstring : String) (handle : FileHandleRec) (str : Nat → Nat),
        (∀ j, num ≤ j →
          (File_SDLGetString rwread errorstring handle str num).str j = str j) ∧
        ((File_SDLGetString rwread errorstring handle str num).ret = true →
          ∃ i, i < num ∧
            (File_SDLGetString rwread errorstring handle str num).str i = 0)) := by
  constructor
  · intro f str
    unfold File_StandardGetString fgets
    rw [if_neg (by omega)]
    have hlen := takeLine_length (f.data.drop f.pos) (num - 1)
    by_cases hl : (takeLine (f.data.drop f.pos) (num - 1)).length = 0
    · rw [if_pos hl]
      exact ⟨fun j _ => rfl, by simp⟩
    · rw [if_neg hl]
      refine ⟨?_, ?_⟩
      · intro j hj
        show bufSet _ _ 0 j = str j
        unfold bufSet
        rw [if_neg (by omega)]
        exact bufWriteBytes_frame _ str 0 j (by omega)
      · intro _
        refine ⟨(takeLine (f.data.drop f.pos) (num - 1)).length, by omega, ?_⟩
        show bufSet _ _ 0 _ = 0
        unfold bufSet
        rw [if_pos rfl]
  · intro rwread hrw errorstring handle str
    have hlen := hrw (num - 1)
    unfold File_SDLGetString
    by_cases hl : (rwread (num - 1)).length = 0
    · rw [if_pos hl]
      refine ⟨?_, by simp⟩
      intro j hj
      exact bufWriteBytes_frame _ str 0 j (by omega)
    · rw [if_neg hl]
      refine ⟨?_, ?_⟩
      · intro j hj
        show bufSet _ _ 0 j = str j
        unfold bufSet
        rw [if_neg (by omega)]
        exact bufWriteBytes_frame _ str 0 j (by omega)
      · intro _
        refine ⟨num - 1, by omega, ?_⟩
        show bufSet _ _ 0 _ = 0
        unfold bufSet
        rw [if_pos rfl]

/-- Witness for claim C5 at concrete inputs: indices beyond the bound
keep their old contents for both backends. -/
theorem getstring_bounds_witness :
    (File_StandardGetString ⟨[72, 10, 73], 0⟩ (fun _ => 7) 2).str 5 = 7 ∧
    (File_SDLGetString (fun c => List.replicate c 65) "e" ⟨1, some 3, none⟩
      (fun _ => 7) 3).str 5 = 7 :=
  ⟨((getstring_bounds 2 (by decide)).1 ⟨[72, 10, 73], 0⟩ (fun _ => 7)).1
      5 (by decide),
   ((getstring_bounds 3 (by decide)).2 (fun c => List.replicate c 65)
      (fun c => by simp) "e" ⟨1, some 3, none⟩ (fun _ => 7)).1 5 (by decide)⟩

/-- Claim C6: `File_Open` with a kind that is neither of the known
backend kinds reaches `I_Error` and never returns a value, whatever
the open primitives would have produced. -/
theorem open_unknown_kind_fatal (fopenRes rwFromFileRes : Option Nat)
    (filetype : Int) (h0 : filetype ≠ FILEHANDLE_STANDARD)
    (h1 : filetype ≠ FILEHANDLE_SDL) :
    File_Open fopenRes rwFromFileRes filetype = OpenResult.fatal := by
  unfold File_Open
  rw [if_neg h0, if_neg h1]

/-- Witness for claim C6 at the concrete unknown kind 5. -/
theorem open_unknown_kind_fatal_witness :
    File_Open none none 5 = OpenResult.fatal :=
  open_unknown_kind_fatal none none 5 (by decide) (by decide)

/-- Claim C7: for each known kind, when the open primitive of that backend
returns `NULL`, `File_Open` frees the freshly allocated handle and
returns `NULL`: no handle, and zero allocations of the call remain
live. -/
theorem open_backend_failure_no_leak (fopenRes rwFromFileRes : Option Nat) :
    File_Open none rwFromFileRes FILEHANDLE_STANDARD = OpenResult.ret none 0 ∧
    File_Open fopenRes none FILEHANDLE_SDL = OpenResult.ret none 0 := by
  constructor
  · rfl
  · rfl

/-- Claim C8: with a successfully delivered byte 0xFF (a full one-byte
primitive read), `File_SDLGetChar` converts it through a signed `char`
and returns -1, which equals the `EOF` sentinel, without touching the
handle; so an `EOF` return does not imply the stream was exhausted. -/
theorem sdl_getchar_sentinel_on_success (errorstring : String)
    (handle : FileHandleRec) :
    ((fun _ : Nat => [255]) 1).length = 1 ∧
    (File_SDLGetChar (fun _ => [255]) errorstring handle).1 = EOF ∧
    (File_SDLGetChar (fun _ => [255]) errorstring handle).2 = handle :=
  ⟨rfl, by show signedChar 255 = EOF; decide, rfl⟩

/-- Claim C9: `File_StandardSize` returns the total data length and
leaves the stream exactly as it found it, so `File_StandardTell`
observes the same position before and after. -/
theorem standard_size_preserves_position (f : CFile) :
    (File_StandardSize f).1 = f.data.length ∧
    (File_StandardSize f).2 = f ∧
    File_StandardTell (File_StandardSize f).2 = File_StandardTell f := by
  obtain ⟨data, pos⟩ := f
  have h2 : File_StandardSize ⟨data, pos⟩ = (data.length, ⟨data, pos⟩) :=
    standardSizeImpl_eq data pos
  rw [h2]
  exact ⟨rfl, rfl, rfl⟩

/-- Claim C10: both backends use the same three-way origin mapping:
`File_SDLSeek` passes `RW_SEEK_SET`, `RW_SEEK_CUR`, `RW_SEEK_END` to
the primitive for `SEEK_SET`, `SEEK_CUR`, `SEEK_END` respectively and
returns -1 exactly when the primitive reports -1, else 0;
`File_StandardSeek` passes offset and origin unchanged to `fseek`,
whose result is 0 on success and the nonzero -1 on failure. -/
theorem seek_origin_mapping_and_codes (rwseek : Int → Int → Int)
    (errorstring : String) (handle : FileHandleRec) (offset : Int)
    (f : CFile) (origin : Int) :
    ((File_SDLSeek rwseek errorstring handle offset SEEK_SET).1 =
      if rwseek offset RW_SEEK_SET = -1 then -1 else 0) ∧
    ((File_SDLSeek rwseek errorstring handle offset SEEK_CUR).1 =
      if rwseek offset RW_SEEK_CUR = -1 then -1 else 0) ∧
    ((File_SDLSeek rwseek errorstring handle offset SEEK_END).1 =
      if rwseek offset RW_SEEK_END = -1 then -1 else 0) ∧
    (¬(File_SDLSeek rwseek errorstring handle offset origin).1 = 0 ↔
      rwseek offset (if origin = SEEK_CUR then RW_SEEK_CUR
        else if origin = SEEK_END then RW_SEEK_END else RW_SEEK_SET) = -1) ∧
    (File_StandardSeek f offset origin = fseek f offset origin) ∧
    ((File_StandardSeek f offset origin).1 = 0 ∨
      (File_StandardSeek f offset origin).1 = -1) := by
  refine ⟨?_, ?_, ?_, ?_, rfl, ?_⟩
  · unfold File_SDLSeek SEEK_SET SEEK_CUR SEEK_END
    rw [if_neg (by decide), if_neg (by decide)]
  · unfold File_SDLSeek SEEK_CUR
    rw [if_pos rfl]
  · unfold File_SDLSeek SEEK_CUR SEEK_END
    rw [if_neg (by decide), if_pos rfl]
  · unfold File_SDLSeek
    by_cases h : rwseek offset (if origin = SEEK_CUR then RW_SEEK_CUR
        else if origin = SEEK_END then RW_SEEK_END else RW_SEEK_SET) = -1
    · simp only [h, if_pos]
      simp
    · simp only [if_neg h]
      simp [h]
  · unfold File_StandardSeek fseek
    dsimp only
    repeat' split
    all_goals simp

end WHandle
